import Mathlib

/-!
A shallow embedding of the cart → checkout → order lifecycle, the review
ledger and the seller gate of the `drf_ecommerce` Django application
(`apps/shop/views.py`, `apps/sellers/views.py`, `apps/shop/models.py`,
`apps/shop/serializers.py`), together with theorems settling the frozen
claims about it.

Conventions of the embedding:
* users, products, order items, orders and shipping addresses are
  identified by natural numbers (database primary keys / UUIDs);
* decimal prices are integers in hundredths (10.00 → 1000);
* the relational store is a `State` record of lists; `get_or_none`
  becomes `List.find?`, `filter` becomes `List.filter`;
* every request handler is a pure function from a `State` and the
  request data to a result value and an updated `State`.
-/

namespace Ecommerce

/-- `Category` from `apps/shop/models.py`: name and derived slug. -/
structure Category where
  name : String
  slug : String
deriving DecidableEq, Repr

/-- `Seller` from `apps/sellers/models.py` (fields as used by the views):
owning user, slug, and the `is_approved` flag. -/
structure Seller where
  user : Nat
  slug : String
  is_approved : Bool
deriving DecidableEq, Repr

/-- `Product` from `apps/shop/models.py`: owning seller (nullable, here the
seller's user id), name, unique slug, description, nullable `price_old`,
`price_current`, category (by slug), stock count. Images are out of scope. -/
structure Product where
  id : Nat
  sellerUser : Option Nat
  name : String
  slug : String
  desc : String
  price_old : Option Int
  price_current : Int
  categorySlug : String
  in_stock : Int
deriving DecidableEq, Repr

/-- `ShippingAddress` from `apps/profiles/models.py` (fields as read by
`CheckoutView.post`): id, owning user, and the seven snapshot fields. -/
structure ShippingAddress where
  id : Nat
  user : Nat
  full_name : String
  email : String
  phone : String
  address : String
  city : String
  country : String
  zipcode : String
deriving DecidableEq, Repr

/-- `Order` from `apps/profiles/models.py` (fields as written by
`CheckoutView.post`): id, owning user, and the frozen shipping snapshot. -/
structure Order where
  id : Nat
  user : Nat
  full_name : String
  email : String
  phone : String
  address : String
  city : String
  country : String
  zipcode : String
deriving DecidableEq, Repr

/-- `OrderItem` from `apps/profiles/models.py` (fields as used by the
views): id, owning user, product reference, quantity, nullable order
reference. `order = none` is a cart line, `order = some o` an order line. -/
structure OrderItem where
  id : Nat
  user : Nat
  product : Nat
  quantity : Nat
  order : Option Nat
deriving DecidableEq, Repr

/-- `Review` from `apps/shop/models.py`: UUID primary key (a `Nat` here),
user, product, rating, text. -/
structure Review where
  id : Nat
  user : Nat
  product : Nat
  rating : Nat
  text : String
deriving DecidableEq, Repr

/-- The relational store: one list per table, plus fresh-id counters for
the rows the embedded handlers create. -/
structure State where
  categories : List Category
  sellers : List Seller
  products : List Product
  items : List OrderItem
  orders : List Order
  reviews : List Review
  shippingAddrs : List ShippingAddress
  nextItemId : Nat
  nextOrderId : Nat
  nextReviewId : Nat
deriving DecidableEq, Repr

/-- `Product.objects.get_or_none(slug=...)`. -/
def findProduct (st : State) (slug : String) : Option Product :=
  st.products.find? (fun p => p.slug == slug)

/-- `OrderItem.objects.filter(user=user, order=None)` — the user's cart. -/
def cartItems (st : State) (user : Nat) : List OrderItem :=
  st.items.filter (fun it => it.user == user && it.order == none)

/-- The lookup inside `OrderItem.objects.update_or_create(user=user,
order_id=None, product=product, ...)`: the cart line for
(user, product, order=null), if any. -/
def findCartLine (st : State) (user pid : Nat) : Option OrderItem :=
  st.items.find? (fun it => it.user == user && it.order == none && it.product == pid)

/-- The response-message substring chosen by `CartView.post`. -/
inductive CartMsg
  | added
  | updated
  | removed
deriving DecidableEq, Repr

/-- The `item` payload serialized by `CartView.post` on non-removal. -/
structure CartItemPayload where
  productId : Nat
  quantity : Nat
deriving DecidableEq, Repr

/-- Result of `CartView.post`. -/
inductive CartResult
  | productMissing
  | ok (statusCode : Nat) (msg : CartMsg) (item : Option CartItemPayload)
deriving DecidableEq, Repr

/-- HTTP status of a `CartView.post` result. -/
def CartResult.status : CartResult → Nat
  | .productMissing => 404
  | .ok s _ _ => s

/-- `CartView.post` (`apps/shop/views.py` lines 182–211): resolve the
product by slug (404 if absent); `update_or_create` the cart line keyed on
(user, product, order=null) with the submitted quantity; `created` drives
status 201 vs 200; a resulting quantity of 0 deletes the line and returns
a null item with the removal message (the status code set by `created` is
kept as is). -/
def cartPost (st : State) (user : Nat) (slug : String) (quantity : Nat) :
    CartResult × State :=
  match findProduct st slug with
  | none => (.productMissing, st)
  | some product =>
    match findCartLine st user product.id with
    | some line =>
      let updated : OrderItem := { line with quantity := quantity }
      let items1 := st.items.map (fun it => if it.id == line.id then updated else it)
      if quantity == 0 then
        (.ok 200 .removed none,
         { st with items := items1.filter (fun it => it.id != line.id) })
      else
        (.ok 200 .updated (some ⟨product.id, quantity⟩), { st with items := items1 })
    | none =>
      let newItem : OrderItem := ⟨st.nextItemId, user, product.id, quantity, none⟩
      let items1 := st.items ++ [newItem]
      if quantity == 0 then
        (.ok 201 .removed none,
         { st with items := items1.filter (fun it => it.id != newItem.id),
                   nextItemId := st.nextItemId + 1 })
      else
        (.ok 201 .added (some ⟨product.id, quantity⟩),
         { st with items := items1, nextItemId := st.nextItemId + 1 })

/-- The request body of `CheckoutView.post` after the
`CheckoutSerializer` (`shipping_id` is a required `UUIDField`): either the
field is missing, or it is not a UUID, or it parses to an id. -/
inductive CheckoutBody
  | missing
  | malformed
  | shippingId (id : Nat)
deriving DecidableEq, Repr

/-- Result of `CheckoutView.post`. -/
inductive CheckoutResult
  | emptyCart
  | validationError
  | shippingNotFound
  | success (orderId : Nat)
deriving DecidableEq, Repr

/-- HTTP status of a `CheckoutView.post` result: 404 for the empty cart
and for an unresolved shipping id, 400 for serializer failure, 201 on
success. -/
def CheckoutResult.status : CheckoutResult → Nat
  | .emptyCart => 404
  | .validationError => 400
  | .shippingNotFound => 404
  | .success _ => 201

/-- `CheckoutView.post` (`apps/shop/views.py` lines 235–269): 404 if the
user's cart-scope items are empty (checked before any input validation);
then the serializer requires a well-formed `shipping_id` (400 otherwise);
the shipping address is resolved by `ShippingAddress.objects.get_or_none(id=shipping_id)`
— by id alone, with no user filter (404 if absent); on success an `Order`
is created under the acting user with the shipping snapshot and every
cart-scope item of the user is re-pointed to it in one bulk update. -/
def checkoutPost (st : State) (user : Nat) (body : CheckoutBody) :
    CheckoutResult × State :=
  if (cartItems st user).isEmpty then (.emptyCart, st)
  else
    match body with
    | .missing => (.validationError, st)
    | .malformed => (.validationError, st)
    | .shippingId sid =>
      match st.shippingAddrs.find? (fun s => s.id == sid) with
      | none => (.shippingNotFound, st)
      | some shipping =>
        let order : Order :=
          ⟨st.nextOrderId, user, shipping.full_name, shipping.email, shipping.phone,
           shipping.address, shipping.city, shipping.country, shipping.zipcode⟩
        let items1 := st.items.map (fun it =>
          if it.user == user && it.order == none then { it with order := some order.id } else it)
        (.success order.id,
         { st with orders := st.orders ++ [order], items := items1,
                   nextOrderId := st.nextOrderId + 1 })

/-- The validated data of `CreateReviewSerializer` / `UpdateReviewSerializer`
(`apps/shop/serializers.py`): bounded text and a rating. -/
structure ReviewInput where
  text : String
  rating : Nat
deriving DecidableEq, Repr

/-- Serializer validation for a review body with both fields supplied:
`text = CharField(max_length=1000)` (non-blank), `rating =
IntegerField(min_value=1, max_value=5)`. -/
def validReviewInput (inp : ReviewInput) : Bool :=
  inp.text != "" && inp.text.length ≤ 1000 && 1 ≤ inp.rating && inp.rating ≤ 5

/-- Result of `CreateReviewView.post`. -/
inductive CreateReviewResult
  | productMissing
  | alreadyExists
  | invalid
  | created (r : Review)
deriving DecidableEq, Repr

/-- HTTP status of a `CreateReviewView.post` result: 404 missing product,
400 for the duplicate-review conflict and for serializer failure, 201 on
creation. -/
def CreateReviewResult.status : CreateReviewResult → Nat
  | .productMissing => 404
  | .alreadyExists => 400
  | .invalid => 400
  | .created _ => 201

/-- `CreateReviewView.post` (`apps/shop/views.py` lines 435–450): resolve
the product by slug (404 if absent); if `product.reviews.filter(user=request.user).exists()`
return the duplicate error (400) before any serializer validation;
otherwise validate and create the review. -/
def createReview (st : State) (user : Nat) (slug : String) (inp : ReviewInput) :
    CreateReviewResult × State :=
  match findProduct st slug with
  | none => (.productMissing, st)
  | some product =>
    if st.reviews.any (fun r => r.product == product.id && r.user == user) then
      (.alreadyExists, st)
    else if validReviewInput inp then
      let r : Review := ⟨st.nextReviewId, user, product.id, inp.rating, inp.text⟩
      (.created r, { st with reviews := st.reviews ++ [r],
                             nextReviewId := st.nextReviewId + 1 })
    else (.invalid, st)

/-- Result of the `ReviewItemView` handlers. `doesNotExistRaised` is the
unhandled `Review.DoesNotExist` exception that `Review.objects.get(...)`
raises in `get` and `delete` when no row matches — it escapes the handler
as a server error, it is not a 404 response. -/
inductive ReviewItemResult
  | productMissing
  | doesNotExistRaised
  | reviewMissing
  | invalid
  | ok (r : Review)
deriving DecidableEq, Repr

/-- `ReviewItemView.get` (`apps/shop/views.py` lines 361–372): resolve the
product by slug (404 if absent); then `Review.objects.get(product=product,
user=user, id=...)` — a raising `get`, not `get_or_none`, so an absent
review raises `Review.DoesNotExist` and the `if not review` 404 branch is
dead code. -/
def reviewItemGet (st : State) (user : Nat) (slug : String) (rid : Nat) :
    ReviewItemResult :=
  match findProduct st slug with
  | none => .productMissing
  | some product =>
    match st.reviews.find? (fun r => r.product == product.id && r.user == user && r.id == rid) with
    | none => .doesNotExistRaised
    | some r => .ok r

/-- `ReviewItemView.delete` (`apps/shop/views.py` lines 381–392): same
raising `Review.objects.get` as `get`; on a found review, deletes it. -/
def reviewItemDelete (st : State) (user : Nat) (slug : String) (rid : Nat) :
    ReviewItemResult × State :=
  match findProduct st slug with
  | none => (.productMissing, st)
  | some product =>
    match st.reviews.find? (fun r => r.product == product.id && r.user == user && r.id == rid) with
    | none => (.doesNotExistRaised, st)
    | some r =>
      (.ok r, { st with reviews := st.reviews.filter (fun x => x.id != r.id) })

/-- `ReviewItemView.put` (`apps/shop/views.py` lines 401–418): fetches the
product and the review with `get_or_none` (the review lookup runs with
`product=None` when the product is absent and then matches nothing, since
`Review.product` is non-nullable); 404 when either is absent; then
validates and overwrites rating and text. -/
def reviewItemPut (st : State) (user : Nat) (slug : String) (rid : Nat)
    (inp : ReviewInput) : ReviewItemResult × State :=
  let product? := findProduct st slug
  let review? : Option Review := match product? with
    | none => none
    | some product =>
      st.reviews.find? (fun r => r.product == product.id && r.user == user && r.id == rid)
  match product? with
  | none => (.productMissing, st)
  | some _ =>
    match review? with
    | none => (.reviewMissing, st)
    | some r =>
      if validReviewInput inp then
        let r1 : Review := { r with rating := inp.rating, text := inp.text }
        (.ok r1, { st with reviews := st.reviews.map (fun x => if x.id == r.id then r1 else x) })
      else (.invalid, st)

/-- Modelled from the spec: `calculate_avg_rating` lives in
`apps/common/utils.py`, which is not among the provided sources. §4.2 of
the spec describes it as "a simple arithmetic mean of ratings,
undefined/zero-equivalent when no reviews exist". -/
def calculate_avg_rating (ratings : List Nat) : ℚ :=
  if ratings.isEmpty then 0
  else (ratings.map (fun (r : Nat) => (r : ℚ))).sum / ratings.length

/-- Result of `ReviewsView.get` (the per-product review list). -/
inductive ReviewsListResult
  | productMissing
  | noReviews
  | ok (avg : ℚ) (reviews : List Review)
deriving DecidableEq, Repr

/-- HTTP status of a `ReviewsView.get` result: 404 for a missing product
and for a product with no reviews, 200 otherwise. -/
def ReviewsListResult.status : ReviewsListResult → Nat
  | .productMissing => 404
  | .noReviews => 404
  | .ok _ _ => 200

/-- `ReviewsView.get` (`apps/shop/views.py` lines 324–344): resolve the
product by slug (404 if absent); fetch its reviews; 404 when there are
none; otherwise return them (pagination is display-only) together with the
average rating computed over the full review set. -/
def reviewsViewGet (st : State) (slug : String) : ReviewsListResult :=
  match findProduct st slug with
  | none => .productMissing
  | some product =>
    let reviews := st.reviews.filter (fun r => r.product == product.id)
    if reviews.isEmpty then .noReviews
    else .ok (calculate_avg_rating (reviews.map (fun r => r.rating))) reviews

/-- Result of `ProductView.get` (single-product detail). -/
inductive ProductDetailResult
  | productMissing
  | ok (avg : ℚ) (p : Product)
deriving DecidableEq, Repr

/-- HTTP status of a `ProductView.get` result. -/
def ProductDetailResult.status : ProductDetailResult → Nat
  | .productMissing => 404
  | .ok _ _ => 200

/-- `ProductView.get` (`apps/shop/views.py` lines 130–143): resolve the
product by slug (404 if absent); always succeeds with the product and the
average rating over its (possibly empty) review set. -/
def productViewGet (st : State) (slug : String) : ProductDetailResult :=
  match findProduct st slug with
  | none => .productMissing
  | some product =>
    let reviews := st.reviews.filter (fun r => r.product == product.id)
    .ok (calculate_avg_rating (reviews.map (fun r => r.rating))) product

/-- Modelled from the spec: the `IsSeller` permission class lives in
`apps/common/permissions.py`, which is not among the provided sources.
§4.3 of the spec describes the Seller Gate as "acting user must own a
Seller record with `is_approved = true`", applied before any
product-mutation handler runs (DRF evaluates `permission_classes` before
the handler body). `ProductsBySellerView.post` additionally repeats the
same check in its body via `Seller.objects.get_or_none(user=request.user,
is_approved=True)`. -/
def isApprovedSeller (st : State) (user : Nat) : Bool :=
  st.sellers.any (fun s => s.user == user && s.is_approved)

/-- The validated data of `CreateProductSerializer`
(`apps/shop/serializers.py`): name, description, current price, category
slug, stock. Images are out of scope. -/
structure ProductInput where
  name : String
  desc : String
  price_current : Int
  category_slug : String
  in_stock : Int
deriving DecidableEq, Repr

/-- Serializer validation for a product body with all required fields
supplied: `name = CharField(max_length=100)` (non-blank), non-blank
description and category slug. -/
def validProductInput (inp : ProductInput) : Bool :=
  inp.name != "" && inp.name.length ≤ 100 && inp.desc != "" && inp.category_slug != ""

/-- Result of the seller product-mutation handlers. `accessDenied` is the
403 of the seller gate and of the ownership check; `deleted` is the 204 of
`SellerProductView.delete`. -/
inductive SellerProductResult
  | accessDenied
  | productMissing
  | categoryMissing
  | invalid
  | ok (p : Product)
  | deleted
deriving DecidableEq, Repr

/-- HTTP status of a seller product-mutation result. -/
def SellerProductResult.status : SellerProductResult → Nat
  | .accessDenied => 403
  | .productMissing => 404
  | .categoryMissing => 404
  | .invalid => 400
  | .ok _ => 200
  | .deleted => 204

/-- `ProductsBySellerView.post` (`apps/sellers/views.py` lines 64–81),
behind the `IsSeller` gate: 403 unless the acting user owns an approved
Seller (checked before everything else); then serializer validation, then
category resolution by slug (404 if absent), then product creation. The
product id is fresh and `AutoSlugField` slug derivation (an external
library) is abstracted as a given fresh slug. -/
def sellerProductCreate (st : State) (user : Nat) (inp : ProductInput)
    (freshId : Nat) (freshSlug : String) : SellerProductResult × State :=
  if !(isApprovedSeller st user) then (.accessDenied, st)
  else if !(validProductInput inp) then (.invalid, st)
  else
    match st.categories.find? (fun c => c.slug == inp.category_slug) with
    | none => (.categoryMissing, st)
    | some category =>
      let p : Product :=
        ⟨freshId, some user, inp.name, freshSlug, inp.desc, none, inp.price_current,
         category.slug, inp.in_stock⟩
      (.ok p, { st with products := st.products ++ [p] })

/-- `SellerProductView.put` (`apps/sellers/views.py` lines 95–116), behind
the `IsSeller` gate: 403 unless the acting user owns an approved Seller;
then the product is resolved by slug (404 if absent), 403 unless owned by
the acting user's seller; then serializer validation, category resolution
(404 if absent), and the update — the previous `price_current` is archived
into `price_old` exactly when the submitted price differs from the stored
one (`set_dict_attr`, from the absent `apps/common/utils.py`, is modelled
from the spec as plain attribute assignment of the validated fields). -/
def sellerProductPut (st : State) (user : Nat) (slug : String) (inp : ProductInput) :
    SellerProductResult × State :=
  if !(isApprovedSeller st user) then (.accessDenied, st)
  else
    match findProduct st slug with
    | none => (.productMissing, st)
    | some product =>
      if product.sellerUser != some user then (.accessDenied, st)
      else if !(validProductInput inp) then (.invalid, st)
      else
        match st.categories.find? (fun c => c.slug == inp.category_slug) with
        | none => (.categoryMissing, st)
        | some category =>
          let priceOld1 : Option Int :=
            if inp.price_current != product.price_current then some product.price_current
            else product.price_old
          let p1 : Product :=
            { product with name := inp.name, desc := inp.desc,
                           price_current := inp.price_current, price_old := priceOld1,
                           categorySlug := category.slug, in_stock := inp.in_stock }
          (.ok p1, { st with products := st.products.map (fun x => if x.id == product.id then p1 else x) })

/-- `SellerProductView.delete` (`apps/sellers/views.py` lines 123–130),
behind the `IsSeller` gate: 403 unless the acting user owns an approved
Seller; then the product is resolved by slug (404 if absent), 403 unless
owned by the acting user's seller; then deleted (204). -/
def sellerProductDelete (st : State) (user : Nat) (slug : String) :
    SellerProductResult × State :=
  if !(isApprovedSeller st user) then (.accessDenied, st)
  else
    match findProduct st slug with
    | none => (.productMissing, st)
    | some product =>
      if product.sellerUser != some user then (.accessDenied, st)
      else (.deleted, { st with products := st.products.filter (fun x => x.id != product.id) })

/-- An order reference (nullable foreign key) is either null or points
below the fresh-order-id counter. -/
def orderBound : Option Nat → Nat → Prop
  | none, _ => True
  | some j, n => j < n

instance (o : Option Nat) (n : Nat) : Decidable (orderBound o n) :=
  match o with
  | none => isTrue trivial
  | some _ => Nat.decLt _ _

/-- Well-formedness of a store — the properties the database guarantees
for the rows the embedded handlers touch: order-item ids lie below the
fresh-item-id counter, and order references lie below the fresh-order-id
counter. -/
def WF (st : State) : Prop :=
  (∀ it ∈ st.items, it.id < st.nextItemId) ∧
  (∀ it ∈ st.items, orderBound it.order st.nextOrderId)

instance (st : State) : Decidable (WF st) := by
  unfold WF
  infer_instance

/-- The post-state contract of a successful checkout: exactly one new
order appended, owned by the acting user and carrying the returned id;
the user's cart-scope items afterwards empty; the items of the new order
are exactly the former cart lines re-pointed to it, so its item count
equals the pre-checkout cart item count. -/
def CheckoutSuccessSpec (st : State) (user oid : Nat) (st1 : State) : Prop :=
  (∃ o : Order, st1.orders = st.orders ++ [o] ∧ o.user = user ∧ o.id = oid) ∧
  cartItems st1 user = [] ∧
  st1.items.filter (fun it => it.order == some oid) =
    (cartItems st user).map (fun it => { it with order := some oid }) ∧
  (st1.items.filter (fun it => it.order == some oid)).length = (cartItems st user).length

/-- The upsert contract of the cart toggle for a resolving product `p`,
with the statuses the code actually produces: an existing cart line is
overwritten (status 200) or, at quantity 0, deleted with a null item
(status 200); an absent line is created (status 201) or, at quantity 0,
created and immediately deleted with a null item — still status 201. -/
def CartToggleSpec (st : State) (user : Nat) (slug : String) (q : Nat) (p : Product) : Prop :=
  (∀ line, findCartLine st user p.id = some line →
     (q = 0 →
        cartPost st user slug q =
          (.ok 200 .removed none,
           { st with items := st.items.filter (fun it => it.id != line.id) })) ∧
     (q ≠ 0 →
        cartPost st user slug q =
          (.ok 200 .updated (some ⟨p.id, q⟩),
           { st with items := st.items.map (fun it => if it.id == line.id then { line with quantity := q } else it) }))) ∧
  (findCartLine st user p.id = none →
     (q = 0 →
        cartPost st user slug q =
          (.ok 201 .removed none, { st with nextItemId := st.nextItemId + 1 })) ∧
     (q ≠ 0 →
        cartPost st user slug q =
          (.ok 201 .added (some ⟨p.id, q⟩),
           { st with items := st.items ++ [⟨st.nextItemId, user, p.id, q, none⟩],
                     nextItemId := st.nextItemId + 1 })))

/-- The create → update → remove scenario on an initially absent cart line
for product `p`: quantities 2, 5, 0 give statuses 201, 200, 200, the
second call overwrites the same line (same id, no duplicate), and the
third call deletes it, restoring the original item table. -/
def CartToggleSequenceSpec (st : State) (user : Nat) (slug : String) (p : Product) : Prop :=
  (cartPost st user slug 2).1.status = 201 ∧
  (cartPost (cartPost st user slug 2).2 user slug 5).1.status = 200 ∧
  (cartPost (cartPost (cartPost st user slug 2).2 user slug 5).2 user slug 0).1.status = 200 ∧
  (cartPost st user slug 2).2.items =
    st.items ++ [⟨st.nextItemId, user, p.id, 2, none⟩] ∧
  (cartPost (cartPost st user slug 2).2 user slug 5).2.items =
    st.items ++ [⟨st.nextItemId, user, p.id, 5, none⟩] ∧
  (cartPost (cartPost (cartPost st user slug 2).2 user slug 5).2 user slug 0).2.items =
    st.items

/-- A sample product used by the concrete instances below. -/
def widget : Product :=
  ⟨10, some 2, "Widget", "widget", "a widget", none, 1000, "tools", 5⟩

/-- A second sample product, distinct from `widget`. -/
def gadget : Product :=
  ⟨11, some 2, "Gadget", "gadget", "a gadget", none, 500, "tools", 5⟩

/-- Store for the C1 instance: one cart line for user 1, one shipping
address (id 7) owned by user 1. -/
def stC1 : State :=
  ⟨[], [], [widget], [⟨0, 1, 10, 2, none⟩], [], [],
   [⟨7, 1, "Ann", "ann@example.com", "555", "1 Main St", "Springfield", "US", "11111"⟩],
   1, 0, 0⟩

/-- Store for the C2 and C10 instances: the widget exists, the cart is
empty. -/
def stC2 : State := ⟨[], [], [widget], [], [], [], [], 0, 0, 0⟩

/-- Store for the C3 instance: completely empty. -/
def stC3 : State := ⟨[], [], [], [], [], [], [], 0, 0, 0⟩

/-- Store for the C4 instance: two products, no reviews yet. -/
def stC4 : State := ⟨[], [], [widget, gadget], [], [], [], [], 0, 0, 0⟩

/-- Store for the C5 instance: user 3 owns a seller record that is not
approved; no products, no categories. -/
def stC5 : State := ⟨[], [⟨3, "shop", false⟩], [], [], [], [], [], 0, 0, 0⟩

/-- Store for the C6 instance: user 2 owns an approved seller and the
widget (current price 10.00); the tools category exists. -/
def stC6 : State :=
  ⟨[⟨"Tools", "tools"⟩], [⟨2, "shop", true⟩], [widget], [], [], [], [], 0, 0, 0⟩

/-- Store for the C7 instance: the widget exists and has no reviews. -/
def stC7 : State := ⟨[], [], [widget], [], [], [], [], 0, 0, 0⟩

/-- Store for the C8 instance: the widget has no reviews, the gadget has
ratings 5, 3 and 4. -/
def stC8 : State :=
  ⟨[], [], [widget, gadget], [], [],
   [⟨0, 1, 11, 5, "great"⟩, ⟨1, 2, 11, 3, "meh"⟩, ⟨2, 3, 11, 4, "fine"⟩],
   [], 0, 0, 3⟩

/-- Store for the C9 instance: user 1 has a cart line; the only shipping
address (id 7) belongs to user 2. -/
def stC9 : State :=
  ⟨[], [], [widget], [⟨0, 1, 10, 2, none⟩], [], [],
   [⟨7, 2, "Bob", "bob@example.com", "777", "2 Oak Ave", "Shelbyville", "US", "22222"⟩],
   1, 0, 0⟩

/-! Helper lemmas on the store. -/

/-- Replacing the item with a given id leaves a list untouched when no
element carries that id. -/
theorem map_replace_id_of_bound (l : List OrderItem) (x : Nat) (u : OrderItem)
    (h : ∀ it ∈ l, it.id ≠ x) :
    l.map (fun it => if it.id == x then u else it) = l := by
  induction l with
  | nil => rfl
  | cons a t ih =>
    have ha : (a.id == x) = false := by
      simpa using h a (by simp)
    simp only [List.map_cons, ha, Bool.false_eq_true, if_false]
    rw [ih (fun it hit => h it (by simp [hit]))]

/-- Propositional-condition variant of `map_replace_id_of_bound`, in the
form `simp` normalizes to. -/
theorem map_replace_id_eq_of_bound (l : List OrderItem) (x : Nat) (u : OrderItem)
    (h : ∀ it ∈ l, it.id ≠ x) :
    l.map (fun it => if it.id = x then u else it) = l := by
  induction l with
  | nil => rfl
  | cons a t ih =>
    rw [List.map_cons, if_neg (h a (by simp)), ih (fun it hit => h it (by simp [hit]))]

/-- Dropping the items with a given id leaves a list untouched when no
element carries that id. -/
theorem filter_ne_id_of_bound (l : List OrderItem) (x : Nat)
    (h : ∀ it ∈ l, it.id ≠ x) :
    l.filter (fun it => it.id != x) = l := by
  rw [List.filter_eq_self]
  intro a ha
  simpa using h a ha

/-- Replacing the item with a given id and then dropping that id gives the
same list as dropping the id directly, provided the replacement carries
the id. -/
theorem filter_map_replace_id (l : List OrderItem) (x : Nat) (u : OrderItem)
    (hu : u.id = x) :
    (l.map (fun it => if it.id == x then u else it)).filter (fun it => it.id != x) =
      l.filter (fun it => it.id != x) := by
  induction l with
  | nil => rfl
  | cons a t ih =>
    by_cases hax : a.id = x
    · simp [hax, hu]
      simpa using ih
    · simp [hax]
      simpa using ih

/-- Re-pointing every cart line of a user to an order empties that user's
cart-scope filter. -/
theorem cart_cleared_after_repoint (items : List OrderItem) (user oid : Nat) :
    (items.map (fun it => if it.user == user && it.order == none
        then { it with order := some oid } else it)).filter
      (fun it => it.user == user && it.order == none) = [] := by
  rw [List.filter_map]
  have hnil : items.filter ((fun it => it.user == user && it.order == none) ∘
      (fun it => if it.user == user && it.order == none
        then { it with order := some oid } else it)) = [] := by
    rw [List.filter_eq_nil_iff]
    intro a _
    by_cases hc : (a.user == user && a.order == none) = true
    · simp [Function.comp, hc]
    · simp only [Function.comp, hc, Bool.false_eq_true, if_false]
      simp only [hc, Bool.false_eq_true, not_false_iff]
  rw [hnil, List.map_nil]

/-- After re-pointing, the items attached to the fresh order id are exactly
the former cart lines with their order reference set, provided no item
referenced that id before. -/
theorem repointed_items_eq (items : List OrderItem) (user oid : Nat)
    (hbound : ∀ it ∈ items, orderBound it.order oid) :
    (items.map (fun it => if it.user == user && it.order == none
        then { it with order := some oid } else it)).filter
      (fun it => it.order == some oid) =
      (items.filter (fun it => it.user == user && it.order == none)).map
        (fun it => { it with order := some oid }) := by
  rw [List.filter_map]
  have hcong : items.filter ((fun it => it.order == some oid) ∘
      (fun it => if it.user == user && it.order == none
        then { it with order := some oid } else it)) =
      items.filter (fun it => it.user == user && it.order == none) := by
    apply List.filter_congr
    intro a ha
    by_cases hc : (a.user == user && a.order == none) = true
    · simp [Function.comp, hc]
    · simp only [Function.comp, hc, Bool.false_eq_true, if_false]
      cases horder : a.order with
      | none => simp [hc, horder]
      | some j =>
        have hj : j < oid := by
          have := hbound a ha
          rw [horder] at this
          exact this
        simp [hc, horder, Nat.ne_of_lt hj]
  rw [hcong]
  apply List.map_congr_left
  intro a ha
  rw [List.mem_filter] at ha
  simp [ha.2]

/-! Claim theorems. -/

/-- Claim C3: for every user whose cart-scope order items are empty,
checkout fails with the not-found "no items in cart" result (404) for
every possible shipping input — missing, malformed or a non-resolving
identifier — and the store is unchanged, so no order is created. -/
theorem checkout_empty_cart_always_not_found (st : State) (user : Nat)
    (hempty : cartItems st user = []) (body : CheckoutBody) :
    checkoutPost st user body = (CheckoutResult.emptyCart, st) ∧
    (checkoutPost st user body).1.status = 404 := by
  have h : (cartItems st user).isEmpty = true := by rw [hempty]; rfl
  refine ⟨?_, ?_⟩ <;> simp [checkoutPost, h, CheckoutResult.status]

/-- Claim C3 witness: in the empty store, user 1's checkout with a missing
shipping id is the 404 empty-cart failure and changes nothing. -/
theorem checkout_empty_cart_always_not_found_witness :
    cartItems stC3 1 = [] ∧
    (checkoutPost stC3 1 CheckoutBody.missing = (CheckoutResult.emptyCart, stC3) ∧
     (checkoutPost stC3 1 CheckoutBody.missing).1.status = 404) :=
  ⟨by decide, checkout_empty_cart_always_not_found stC3 1 (by decide) CheckoutBody.missing⟩

/-- Claim C5: an acting user without an approved Seller record gets the
403 access-denied result from product create, update and delete, for
every input — in particular even when the product or category slug does
not resolve — because the seller gate runs before any existence check;
the store is unchanged. -/
theorem seller_gate_before_existence (st : State) (user : Nat)
    (hno : isApprovedSeller st user = false) (inp : ProductInput) (slug : String)
    (freshId : Nat) (freshSlug : String) :
    sellerProductCreate st user inp freshId freshSlug = (.accessDenied, st) ∧
    sellerProductPut st user slug inp = (.accessDenied, st) ∧
    sellerProductDelete st user slug = (.accessDenied, st) ∧
    SellerProductResult.accessDenied.status = 403 := by
  refine ⟨?_, ?_, ?_, rfl⟩ <;>
    simp [sellerProductCreate, sellerProductPut, sellerProductDelete, hno]

/-- Claim C5 witness: user 3 owns only an unapproved seller record; in a
store with no products and no categories, create, update and delete on the
unresolvable slug "ghost" all answer 403 and change nothing. -/
theorem seller_gate_before_existence_witness :
    isApprovedSeller stC5 3 = false ∧
    (sellerProductCreate stC5 3 ⟨"X", "d", 100, "ghost", 1⟩ 0 "x" = (.accessDenied, stC5) ∧
     sellerProductPut stC5 3 "ghost" ⟨"X", "d", 100, "ghost", 1⟩ = (.accessDenied, stC5) ∧
     sellerProductDelete stC5 3 "ghost" = (.accessDenied, stC5) ∧
     SellerProductResult.accessDenied.status = 403) :=
  ⟨by decide, seller_gate_before_existence stC5 3 (by decide) ⟨"X", "d", 100, "ghost", 1⟩
    "ghost" 0 "x"⟩

/-- Claim C9: the checkout shipping address is resolved by its identifier
alone — `get_or_none(id=shipping_id)` has no user filter — so a user `a`
with a non-empty cart who supplies the id of a different user `b`'s
address succeeds, and the order is created under `a` with `b`'s shipping
fields snapshotted. -/
theorem checkout_shipping_resolved_by_id_alone (st : State) (a b : Nat)
    (s : ShippingAddress) (_hab : a ≠ b) (_howner : s.user = b)
    (hfind : st.shippingAddrs.find? (fun x => x.id == s.id) = some s)
    (hcart : cartItems st a ≠ []) :
    ∃ st1 : State,
      checkoutPost st a (CheckoutBody.shippingId s.id) = (.success st.nextOrderId, st1) ∧
      ∃ o : Order, st1.orders = st.orders ++ [o] ∧ o.user = a ∧
        o.full_name = s.full_name ∧ o.email = s.email ∧ o.phone = s.phone ∧
        o.address = s.address ∧ o.city = s.city ∧ o.country = s.country ∧
        o.zipcode = s.zipcode := by
  have hne : (cartItems st a).isEmpty = false := by
    cases h : cartItems st a with
    | nil => exact absurd h hcart
    | cons x xs => rfl
  have hrun : checkoutPost st a (CheckoutBody.shippingId s.id) =
      (.success st.nextOrderId,
       { st with
          orders := st.orders ++
            [⟨st.nextOrderId, a, s.full_name, s.email, s.phone, s.address, s.city,
              s.country, s.zipcode⟩],
          items := st.items.map (fun it =>
            if it.user == a && it.order == none
            then { it with order := some st.nextOrderId } else it),
          nextOrderId := st.nextOrderId + 1 }) := by
    simp [checkoutPost, hne, hfind]
  exact ⟨_, hrun, ⟨_, rfl, rfl, rfl, rfl, rfl, rfl, rfl, rfl, rfl⟩⟩

/-- Claim C9 witness: in `stC9`, user 1 checks out with the id of user 2's
address; the checkout succeeds and the resulting order belongs to user 1
while carrying user 2's shipping fields. -/
theorem checkout_shipping_resolved_by_id_alone_witness :
    (1 : Nat) ≠ 2 ∧
    cartItems stC9 1 ≠ [] ∧
    (∃ st1 : State,
      checkoutPost stC9 1 (CheckoutBody.shippingId 7) = (.success stC9.nextOrderId, st1) ∧
      ∃ o : Order, st1.orders = stC9.orders ++ [o] ∧ o.user = 1 ∧
        o.full_name = "Bob" ∧ o.email = "bob@example.com" ∧ o.phone = "777" ∧
        o.address = "2 Oak Ave" ∧ o.city = "Shelbyville" ∧ o.country = "US" ∧
        o.zipcode = "22222") :=
  ⟨by decide, by decide,
   checkout_shipping_resolved_by_id_alone stC9 1 2
     ⟨7, 2, "Bob", "bob@example.com", "777", "2 Oak Ave", "Shelbyville", "US", "22222"⟩
     (by decide) rfl (by decide) (by decide)⟩

/-- Claim C4: starting with no review by the user for either of two
distinct resolving products and a valid body, the first create succeeds;
repeating it for the same product fails with the conflict-style 400 and
leaves the store unchanged; creating for the second product still
succeeds, so the user ends with exactly the two new reviews. -/
theorem review_create_conflict_on_duplicate (st : State) (user : Nat)
    (s1 s2 : String) (p1 p2 : Product) (inp : ReviewInput)
    (hp1 : findProduct st s1 = some p1) (hp2 : findProduct st s2 = some p2)
    (hne : p1.id ≠ p2.id)
    (hno1 : ∀ r ∈ st.reviews, ¬(r.product = p1.id ∧ r.user = user))
    (hno2 : ∀ r ∈ st.reviews, ¬(r.product = p2.id ∧ r.user = user))
    (hvalid : validReviewInput inp = true) :
    ∃ r1 st1, createReview st user s1 inp = (.created r1, st1) ∧
      createReview st1 user s1 inp = (.alreadyExists, st1) ∧
      (createReview st1 user s1 inp).1.status = 400 ∧
      ∃ r2 st2, createReview st1 user s2 inp = (.created r2, st2) ∧
        st2.reviews = st.reviews ++ [r1, r2] := by
  have hany1 : st.reviews.any (fun r => r.product == p1.id && r.user == user) = false := by
    rw [List.any_eq_false]
    intro r hr
    simpa using hno1 r hr
  have hany2 : st.reviews.any (fun r => r.product == p2.id && r.user == user) = false := by
    rw [List.any_eq_false]
    intro r hr
    simpa using hno2 r hr
  have hrun1 : createReview st user s1 inp =
      (.created ⟨st.nextReviewId, user, p1.id, inp.rating, inp.text⟩,
       { st with reviews := st.reviews ++ [⟨st.nextReviewId, user, p1.id, inp.rating, inp.text⟩],
                 nextReviewId := st.nextReviewId + 1 }) := by
    simp [createReview, hp1, hany1, hvalid]
  have hp1b : findProduct
      { st with reviews := st.reviews ++ [⟨st.nextReviewId, user, p1.id, inp.rating, inp.text⟩],
                nextReviewId := st.nextReviewId + 1 } s1 = some p1 := hp1
  have hp2b : findProduct
      { st with reviews := st.reviews ++ [⟨st.nextReviewId, user, p1.id, inp.rating, inp.text⟩],
                nextReviewId := st.nextReviewId + 1 } s2 = some p2 := hp2
  have hany1b : (st.reviews ++ [(⟨st.nextReviewId, user, p1.id, inp.rating, inp.text⟩ : Review)]).any
      (fun r => r.product == p1.id && r.user == user) = true := by
    simp
  have hany2b : (st.reviews ++ [(⟨st.nextReviewId, user, p1.id, inp.rating, inp.text⟩ : Review)]).any
      (fun r => r.product == p2.id && r.user == user) = false := by
    rw [List.any_eq_false]
    intro r hr
    rcases List.mem_append.mp hr with h | h
    · simpa using hno2 r h
    · have hr1 : r = ⟨st.nextReviewId, user, p1.id, inp.rating, inp.text⟩ := by simpa using h
      subst hr1
      simp
      intro hpe
      exact absurd hpe hne
  refine ⟨⟨st.nextReviewId, user, p1.id, inp.rating, inp.text⟩,
    { st with reviews := st.reviews ++ [⟨st.nextReviewId, user, p1.id, inp.rating, inp.text⟩],
              nextReviewId := st.nextReviewId + 1 }, hrun1, ?_, ?_, ?_⟩
  · simp [createReview, hp1b, hany1b]
  · simp [createReview, hp1b, hany1b, CreateReviewResult.status]
  · refine ⟨⟨st.nextReviewId + 1, user, p2.id, inp.rating, inp.text⟩,
      { st with reviews := (st.reviews ++ [⟨st.nextReviewId, user, p1.id, inp.rating, inp.text⟩]) ++ [⟨st.nextReviewId + 1, user, p2.id, inp.rating, inp.text⟩],
                nextReviewId := st.nextReviewId + 1 + 1 }, ?_, ?_⟩
    · simp [createReview, hp2b, hany2b, hvalid]
    · simp

/-- Claim C4 witness: user 1 reviews the widget, a second attempt on the
widget is the 400 conflict without a new review, and a review of the
gadget still succeeds. -/
theorem review_create_conflict_on_duplicate_witness :
    validReviewInput ⟨"good", 5⟩ = true ∧
    (∃ r1 st1, createReview stC4 1 "widget" ⟨"good", 5⟩ = (.created r1, st1) ∧
      createReview st1 1 "widget" ⟨"good", 5⟩ = (.alreadyExists, st1) ∧
      (createReview st1 1 "widget" ⟨"good", 5⟩).1.status = 400 ∧
      ∃ r2 st2, createReview st1 1 "gadget" ⟨"good", 5⟩ = (.created r2, st2) ∧
        st2.reviews = stC4.reviews ++ [r1, r2]) :=
  ⟨by decide,
   review_create_conflict_on_duplicate stC4 1 "widget" "gadget" widget gadget ⟨"good", 5⟩
     (by decide) (by decide) (by decide) (by decide) (by decide) (by decide)⟩

/-- Claim C6: on a successful product update by its owning approved
seller, the stored price is archived into `price_old` exactly when the
submitted `price_current` differs from the stored one; when they are
equal, `price_old` is left unchanged. -/
theorem product_put_price_archival (st : State) (user : Nat) (slug : String)
    (inp : ProductInput) (product : Product) (category : Category)
    (happ : isApprovedSeller st user = true)
    (hp : findProduct st slug = some product)
    (hown : product.sellerUser = some user)
    (hvalid : validProductInput inp = true)
    (hcat : st.categories.find? (fun c => c.slug == inp.category_slug) = some category) :
    ∃ p1 st1, sellerProductPut st user slug inp = (.ok p1, st1) ∧
      p1.price_current = inp.price_current ∧
      (inp.price_current ≠ product.price_current → p1.price_old = some product.price_current) ∧
      (inp.price_current = product.price_current → p1.price_old = product.price_old) := by
  have hown2 : (product.sellerUser != some user) = false := by simp [hown]
  by_cases hpr : inp.price_current = product.price_current
  · have hrun : sellerProductPut st user slug inp =
        (.ok { product with name := inp.name, desc := inp.desc,
                            price_current := inp.price_current, price_old := product.price_old,
                            categorySlug := category.slug, in_stock := inp.in_stock },
         { st with products := st.products.map (fun x => if x.id == product.id then { product with name := inp.name, desc := inp.desc, price_current := inp.price_current, price_old := product.price_old, categorySlug := category.slug, in_stock := inp.in_stock } else x) }) := by
      simp [sellerProductPut, happ, hp, hown2, hvalid, hcat, hpr]
    exact ⟨_, _, hrun, rfl, fun h => absurd hpr h, fun _ => rfl⟩
  · have hrun : sellerProductPut st user slug inp =
        (.ok { product with name := inp.name, desc := inp.desc,
                            price_current := inp.price_current,
                            price_old := some product.price_current,
                            categorySlug := category.slug, in_stock := inp.in_stock },
         { st with products := st.products.map (fun x => if x.id == product.id then { product with name := inp.name, desc := inp.desc, price_current := inp.price_current, price_old := some product.price_current, categorySlug := category.slug, in_stock := inp.in_stock } else x) }) := by
      simp [sellerProductPut, happ, hp, hown2, hvalid, hcat, hpr]
    exact ⟨_, _, hrun, rfl, fun _ => rfl, fun h => absurd h hpr⟩

/-- Claim C6 witness: seller-user 2 lowers the widget price from 10.00
(1000) to 8.00 (800); the response product has `price_old = 10.00` and
`price_current = 8.00`. -/
theorem product_put_price_archival_witness :
    validProductInput ⟨"Widget", "a widget", 800, "tools", 5⟩ = true ∧
    (∃ p1 st1, sellerProductPut stC6 2 "widget" ⟨"Widget", "a widget", 800, "tools", 5⟩ =
        (.ok p1, st1) ∧
      p1.price_current = 800 ∧
      ((800 : Int) ≠ widget.price_current → p1.price_old = some widget.price_current) ∧
      ((800 : Int) = widget.price_current → p1.price_old = widget.price_old)) :=
  ⟨by decide,
   product_put_price_archival stC6 2 "widget" ⟨"Widget", "a widget", 800, "tools", 5⟩
     widget ⟨"Tools", "tools"⟩ (by decide) (by decide) (by decide) (by decide) (by decide)⟩

/-- Claim C8: for a resolving product with zero reviews the review-list
endpoint answers 404 while the single-product detail endpoint succeeds
with the zero-equivalent average; for a resolving product with at least
one review the list endpoint returns its reviews together with the
arithmetic mean of all its ratings. -/
theorem reviews_list_vs_detail (st : State) (s1 s2 : String) (p1 p2 : Product)
    (hp1 : findProduct st s1 = some p1) (hp2 : findProduct st s2 = some p2)
    (h1 : st.reviews.filter (fun r => r.product == p1.id) = [])
    (h2 : st.reviews.filter (fun r => r.product == p2.id) ≠ []) :
    reviewsViewGet st s1 = .noReviews ∧
    (reviewsViewGet st s1).status = 404 ∧
    productViewGet st s1 = .ok 0 p1 ∧
    reviewsViewGet st s2 =
      .ok ((((st.reviews.filter (fun r => r.product == p2.id)).map (fun r => (r.rating : ℚ))).sum) /
            ((st.reviews.filter (fun r => r.product == p2.id)).length : ℚ))
          (st.reviews.filter (fun r => r.product == p2.id)) := by
  have hemp1 : (st.reviews.filter (fun r => r.product == p1.id)).isEmpty = true := by
    rw [h1]; rfl
  have hemp2 : (st.reviews.filter (fun r => r.product == p2.id)).isEmpty = false := by
    cases h : st.reviews.filter (fun r => r.product == p2.id) with
    | nil => exact absurd h h2
    | cons x xs => rfl
  refine ⟨?_, ?_, ?_, ?_⟩
  · simp [reviewsViewGet, hp1, hemp1]
  · simp [reviewsViewGet, hp1, hemp1, ReviewsListResult.status]
  · have hc : calculate_avg_rating
        ((st.reviews.filter (fun r => r.product == p1.id)).map (fun r => r.rating)) = 0 := by
      simp [calculate_avg_rating, h1]
    simp [productViewGet, hp1, hc]
  · have hc : calculate_avg_rating
        ((st.reviews.filter (fun r => r.product == p2.id)).map (fun r => r.rating)) =
        (((st.reviews.filter (fun r => r.product == p2.id)).map (fun r => (r.rating : ℚ))).sum) /
          ((st.reviews.filter (fun r => r.product == p2.id)).length : ℚ) := by
      have hne : ((st.reviews.filter (fun r => r.product == p2.id)).map
          (fun r => r.rating)).isEmpty = false := by
        cases h : st.reviews.filter (fun r => r.product == p2.id) with
        | nil => exact absurd h h2
        | cons x xs => rfl
      simp only [calculate_avg_rating, hne, Bool.false_eq_true, if_false, List.map_map,
        List.length_map]
      rfl
    simp [reviewsViewGet, hp2, hemp2, hc]

/-- Claim C8 witness: the widget has no reviews — its list endpoint is the
404 `noReviews` while its detail endpoint succeeds with average 0; the
gadget has ratings 5, 3, 4 and its list endpoint returns them with the
arithmetic mean (which equals 4). -/
theorem reviews_list_vs_detail_witness :
    (stC8.reviews.filter (fun r => r.product == widget.id) = [] ∧
     stC8.reviews.filter (fun r => r.product == gadget.id) ≠ []) ∧
    (reviewsViewGet stC8 "widget" = .noReviews ∧
     (reviewsViewGet stC8 "widget").status = 404 ∧
     productViewGet stC8 "widget" = .ok 0 widget ∧
     reviewsViewGet stC8 "gadget" =
       .ok ((((stC8.reviews.filter (fun r => r.product == gadget.id)).map (fun r => (r.rating : ℚ))).sum) /
             ((stC8.reviews.filter (fun r => r.product == gadget.id)).length : ℚ))
           (stC8.reviews.filter (fun r => r.product == gadget.id))) :=
  ⟨⟨by decide, by decide⟩,
   reviews_list_vs_detail stC8 "widget" "gadget" widget gadget (by decide) (by decide)
     (by decide) (by decide)⟩

/-- Claim C7 (code bug): with the widget present and no stored review, the
single-review GET and DELETE reach the raising `Review.objects.get`, so
the absent review escapes as an unhandled `Review.DoesNotExist` exception
(server error) instead of the 404 the claim — and the dead `if not review`
branches plus the PUT path — prescribe; DELETE changes no state, and PUT
does answer the 404. -/
theorem review_get_delete_raise_on_absent_review :
    reviewItemGet stC7 1 "widget" 99 = .doesNotExistRaised ∧
    reviewItemDelete stC7 1 "widget" 99 = (.doesNotExistRaised, stC7) ∧
    reviewItemPut stC7 1 "widget" 99 ⟨"ok", 4⟩ = (.reviewMissing, stC7) := by
  exact ⟨rfl, rfl, rfl⟩

/-- Claim C2 counterexample: toggling the widget into an empty cart with
quantity 0 takes the zero-quantity path — the (freshly created) line is
deleted and the response item is null — yet the status is 201, not the
200 the claim asserts for every zero-quantity toggle. -/
theorem cart_toggle_zero_fresh_status_201 :
    cartPost stC2 1 "widget" 0 =
      (CartResult.ok 201 CartMsg.removed none, { stC2 with nextItemId := 1 }) ∧
    (cartPost stC2 1 "widget" 0).1.status ≠ 200 := by
  exact ⟨rfl, by decide⟩

/-- Claim C1: every successful checkout creates exactly one new order for
the acting user, re-points every one of the user's cart-scope items to it,
and leaves the cart empty with the new order's item count equal to the
pre-checkout cart item count. -/
theorem checkout_success_spec (st : State) (user : Nat) (body : CheckoutBody)
    (oid : Nat) (st1 : State) (hwf : WF st)
    (hrun : checkoutPost st user body = (.success oid, st1)) :
    CheckoutSuccessSpec st user oid st1 := by
  by_cases hemp : (cartItems st user).isEmpty = true
  · unfold checkoutPost at hrun
    rw [if_pos hemp] at hrun
    simp at hrun
  · cases body with
    | missing =>
      unfold checkoutPost at hrun
      rw [if_neg hemp] at hrun
      simp at hrun
    | malformed =>
      unfold checkoutPost at hrun
      rw [if_neg hemp] at hrun
      simp at hrun
    | shippingId sid =>
      have hisEmp : (cartItems st user).isEmpty = false := by
        cases h : (cartItems st user).isEmpty with
        | false => rfl
        | true => exact absurd h hemp
      cases hfind : st.shippingAddrs.find? (fun s => s.id == sid) with
      | none =>
        have hrun2 : checkoutPost st user (CheckoutBody.shippingId sid) =
            (.shippingNotFound, st) := by
          simp [checkoutPost, hisEmp, hfind]
        rw [hrun2] at hrun
        simp at hrun
      | some shipping =>
        have hrun2 : checkoutPost st user (CheckoutBody.shippingId sid) =
            (.success st.nextOrderId,
             { st with
                orders := st.orders ++
                  [⟨st.nextOrderId, user, shipping.full_name, shipping.email, shipping.phone,
                    shipping.address, shipping.city, shipping.country, shipping.zipcode⟩],
                items := st.items.map (fun it =>
                  if it.user == user && it.order == none
                  then { it with order := some st.nextOrderId } else it),
                nextOrderId := st.nextOrderId + 1 }) := by
          simp [checkoutPost, hisEmp, hfind]
        rw [hrun2, Prod.mk.injEq] at hrun
        obtain ⟨h1, h2⟩ := hrun
        injection h1 with h1
        subst h1
        subst h2
        refine ⟨⟨⟨st.nextOrderId, user, shipping.full_name, shipping.email, shipping.phone,
          shipping.address, shipping.city, shipping.country, shipping.zipcode⟩,
          rfl, rfl, rfl⟩, ?_, ?_, ?_⟩
        · exact cart_cleared_after_repoint st.items user st.nextOrderId
        · exact repointed_items_eq st.items user st.nextOrderId hwf.2
        · rw [repointed_items_eq st.items user st.nextOrderId hwf.2]
          exact List.length_map _ _

/-- Claim C1 witness: in `stC1`, user 1's checkout against shipping
address 7 succeeds with order id 0 and satisfies the checkout post-state
contract. -/
theorem checkout_success_spec_witness :
    WF stC1 ∧
    CheckoutSuccessSpec stC1 1 0 ((checkoutPost stC1 1 (CheckoutBody.shippingId 7)).2) :=
  ⟨by decide,
   checkout_success_spec stC1 1 (CheckoutBody.shippingId 7) 0
     ((checkoutPost stC1 1 (CheckoutBody.shippingId 7)).2) (by decide) rfl⟩

/-- Appending a fresh cart line to an item table with no line for its
(user, product, cart-scope) key makes it the line the upsert lookup
finds. -/
theorem findCartLine_append_fresh (items : List OrderItem) (user pid nid q : Nat)
    (habs : items.find?
      (fun it => it.user == user && it.order == none && it.product == pid) = none) :
    (items ++ [(⟨nid, user, pid, q, none⟩ : OrderItem)]).find?
      (fun it => it.user == user && it.order == none && it.product == pid) =
      some ⟨nid, user, pid, q, none⟩ := by
  rw [List.find?_append, habs]
  simp

/-- Claim C2 (amended): the cart toggle is an upsert keyed on
(user, product, order=null) — an existing line has its quantity
overwritten (status 200), an absent line is created (status 201), and a
resulting quantity of 0 deletes the line and returns a null item, with
status 200 when the line previously existed and 201 when it was freshly
created; the create(2) → update(5) → toggle(0) sequence yields statuses
201, 200, 200 with the second call updating the same line rather than
creating a duplicate. -/
theorem cart_toggle_upsert (st : State) (user : Nat) (slug : String) (q : Nat)
    (p : Product) (hwf : WF st) (hp : findProduct st slug = some p) :
    CartToggleSpec st user slug q p ∧
    (findCartLine st user p.id = none → CartToggleSequenceSpec st user slug p) := by
  have hids : ∀ it ∈ st.items, it.id ≠ st.nextItemId :=
    fun it hit => Nat.ne_of_lt (hwf.1 it hit)
  constructor
  · constructor
    · intro line hline
      constructor
      · intro hq
        subst hq
        have heq := filter_map_replace_id st.items line.id { line with quantity := 0 } rfl
        simp [cartPost, hp, hline]
        simpa using heq
      · intro hq
        have hq2 : (q == 0) = false := by simpa using hq
        simp [cartPost, hp, hline, hq2]
    · intro habsent
      constructor
      · intro hq
        subst hq
        have heq : (st.items ++ [(⟨st.nextItemId, user, p.id, 0, none⟩ : OrderItem)]).filter
            (fun it => it.id != st.nextItemId) = st.items := by
          rw [List.filter_append, filter_ne_id_of_bound st.items st.nextItemId hids]
          simp
        simp [cartPost, hp, habsent, heq]
      · intro hq
        have hq2 : (q == 0) = false := by simpa using hq
        simp [cartPost, hp, habsent, hq2]
  · intro habsent
    have habsent2 : st.items.find?
        (fun it => it.user == user && it.order == none && it.product == p.id) = none := habsent
    have step1 : cartPost st user slug 2 =
        (.ok 201 .added (some ⟨p.id, 2⟩),
         { st with items := st.items ++ [⟨st.nextItemId, user, p.id, 2, none⟩],
                   nextItemId := st.nextItemId + 1 }) := by
      simp [cartPost, hp, habsent]
    have hp1 : findProduct
        { st with items := st.items ++ [⟨st.nextItemId, user, p.id, 2, none⟩],
                  nextItemId := st.nextItemId + 1 } slug = some p := hp
    have hline1 : findCartLine
        { st with items := st.items ++ [⟨st.nextItemId, user, p.id, 2, none⟩],
                  nextItemId := st.nextItemId + 1 } user p.id =
        some ⟨st.nextItemId, user, p.id, 2, none⟩ :=
      findCartLine_append_fresh st.items user p.id st.nextItemId 2 habsent2
    have step2 : cartPost
        { st with items := st.items ++ [⟨st.nextItemId, user, p.id, 2, none⟩],
                  nextItemId := st.nextItemId + 1 } user slug 5 =
        (.ok 200 .updated (some ⟨p.id, 5⟩),
         { st with items := st.items ++ [⟨st.nextItemId, user, p.id, 5, none⟩],
                   nextItemId := st.nextItemId + 1 }) := by
      simp [cartPost, hp1, hline1]
      exact map_replace_id_eq_of_bound st.items st.nextItemId _ hids
    have hp2 : findProduct
        { st with items := st.items ++ [⟨st.nextItemId, user, p.id, 5, none⟩],
                  nextItemId := st.nextItemId + 1 } slug = some p := hp
    have hline2 : findCartLine
        { st with items := st.items ++ [⟨st.nextItemId, user, p.id, 5, none⟩],
                  nextItemId := st.nextItemId + 1 } user p.id =
        some ⟨st.nextItemId, user, p.id, 5, none⟩ :=
      findCartLine_append_fresh st.items user p.id st.nextItemId 5 habsent2
    have step3 : cartPost
        { st with items := st.items ++ [⟨st.nextItemId, user, p.id, 5, none⟩],
                  nextItemId := st.nextItemId + 1 } user slug 0 =
        (.ok 200 .removed none,
         { st with items := st.items, nextItemId := st.nextItemId + 1 }) := by
      simp [cartPost, hp2, hline2]
      rw [map_replace_id_eq_of_bound st.items st.nextItemId _ hids]
      exact filter_ne_id_of_bound st.items st.nextItemId hids
    refine ⟨?_, ?_, ?_, ?_, ?_, ?_⟩ <;>
      simp [step1, step2, step3, CartResult.status]

/-- Claim C2 (amended) witness: in the store with the widget and an empty
cart, user 1's toggles satisfy the upsert contract at quantity 3, and the
2 → 5 → 0 sequence yields 201, 200, 200 on one and the same line. -/
theorem cart_toggle_upsert_witness :
    (WF stC2 ∧ findProduct stC2 "widget" = some widget) ∧
    (CartToggleSpec stC2 1 "widget" 3 widget ∧
     (findCartLine stC2 1 widget.id = none → CartToggleSequenceSpec stC2 1 "widget" widget)) :=
  ⟨⟨by decide, by decide⟩, cart_toggle_upsert stC2 1 "widget" 3 widget (by decide) (by decide)⟩

/-- Claim C10: toggling an absent cart line to quantity 0 creates the line
and immediately deletes it — the response is status 201 with the removal
message and a null item, and the user's item table is exactly what it was
before. -/
theorem cart_toggle_zero_on_absent (st : State) (user : Nat) (slug : String)
    (p : Product) (hwf : WF st) (hp : findProduct st slug = some p)
    (habsent : findCartLine st user p.id = none) :
    cartPost st user slug 0 =
      (.ok 201 .removed none, { st with nextItemId := st.nextItemId + 1 }) ∧
    (cartPost st user slug 0).2.items = st.items := by
  have hids : ∀ it ∈ st.items, it.id ≠ st.nextItemId :=
    fun it hit => Nat.ne_of_lt (hwf.1 it hit)
  have heq : (st.items ++ [(⟨st.nextItemId, user, p.id, 0, none⟩ : OrderItem)]).filter
      (fun it => it.id != st.nextItemId) = st.items := by
    rw [List.filter_append, filter_ne_id_of_bound st.items st.nextItemId hids]
    simp
  have h : cartPost st user slug 0 =
      (.ok 201 .removed none, { st with nextItemId := st.nextItemId + 1 }) := by
    simp [cartPost, hp, habsent, heq]
  exact ⟨h, by rw [h]⟩

/-- Claim C10 witness: toggling the widget into user 1's empty cart with
quantity 0 answers 201 with the removal message and a null item, and the
item table is unchanged. -/
theorem cart_toggle_zero_on_absent_witness :
    (WF stC2 ∧ findProduct stC2 "widget" = some widget ∧ findCartLine stC2 1 widget.id = none) ∧
    (cartPost stC2 1 "widget" 0 =
       (.ok 201 .removed none, { stC2 with nextItemId := 1 }) ∧
     (cartPost stC2 1 "widget" 0).2.items = stC2.items) :=
  ⟨⟨by decide, by decide, by decide⟩,
   cart_toggle_zero_on_absent stC2 1 "widget" widget (by decide) (by decide) (by decide)⟩

end Ecommerce
